import Mathlib

/-!
Shallow embedding of the Odoo sprint-management module
(`addons/odoo_flow/models/sprint.py` and
`addons/odoo_flow/models/project_task.py`).

Modelling conventions:
- Calendar dates are integers (a day count); comparisons between dates in
  the Python source become integer comparisons, and `(e - s).days` becomes
  `e - s`.
- Odoo `Many2one` references are modelled as `Option Nat` record ids: a
  falsy (unset) reference is `none`.  Although `project_id`, `start_date`
  and `end_date` are `required=True`, the source code explicitly guards
  against them being unset (transient form state), so they stay `Option`.
- A validator that may `raise ValidationError(msg)` becomes a function
  returning `Except String Unit`; the ORM aborts the whole transaction on
  error, so an `Except.error` result means no record was modified
  (all-or-nothing).
- The record database is a `List` of records; Odoo `search_count` becomes
  `List.filter` + `List.length`.
-/

namespace OdooFlow

/-- Sprint lifecycle state (`state` / `state_manual` selection values). -/
inductive SprintState where
  | planned
  | active
  | done
deriving DecidableEq, Repr

/-- Sprint state mode (`state_mode` selection values). -/
inductive StateMode where
  | auto
  | manual
deriving DecidableEq, Repr

/-- A `project.sprint` record.  `state` is the stored computed field. -/
structure Sprint where
  id : Nat
  name : String
  project_id : Option Nat
  start_date : Option Int
  end_date : Option Int
  state_mode : StateMode
  state_manual : SprintState
  state : SprintState
deriving DecidableEq, Repr

/-- The extension of a `project.task` record used by this module:
`sprint_id` is added by the module, `project_id` and `date_deadline`
pre-exist on the task model. -/
structure Task where
  id : Nat
  project_id : Option Nat
  sprint_id : Option Nat
  date_deadline : Option Int
deriving DecidableEq, Repr

/-- Truthiness test on an optional date followed by a comparison, used to
translate Python conditions such as `sprint.start_date and today < sprint.start_date`. -/
def optTest (o : Option Int) (p : Int → Bool) : Bool :=
  match o with
  | none => false
  | some v => p v

/-- `ProjectSprint._compute_state`: derive the sprint state from
`state_mode`, `state_manual`, `start_date`, `end_date` and the current
date `today`, mirroring the Python `if/elif` chain. -/
def compute_state (today : Int) (state_mode : StateMode)
    (state_manual : SprintState) (start_date end_date : Option Int) :
    SprintState :=
  match state_mode with
  | .manual => state_manual
  | .auto =>
    if optTest start_date (fun s => decide (today < s)) then
      .planned
    else if optTest start_date (fun s =>
        optTest end_date (fun e => decide (s ≤ today) && decide (today ≤ e))) then
      .active
    else if optTest end_date (fun e => decide (e < today)) then
      .done
    else
      -- fallback if dates incomplete
      .planned

/-- `ProjectSprint._check_duration_and_order`: start must be ≤ end and the
sprint duration `(end_date - start_date).days + 1` must be at most 28 days.
Runs only when both dates are set. -/
def check_duration_and_order (start_date end_date : Option Int) :
    Except String Unit :=
  match start_date, end_date with
  | some s, some e =>
    if e < s then
      Except.error "Sprint end date cannot be before the start date."
    else if (e - s) + 1 > 28 then
      Except.error "Sprint duration cannot exceed 4 weeks (28 days)."
    else
      Except.ok ()
  | _, _ => Except.ok ()

/-- `ProjectSprint._check_no_invalid_past_planned_active_sprint`: a sprint
in manual mode whose `end_date` is before `today` cannot have
`state_manual` planned or active.  Sprints with an unset date are skipped. -/
def check_no_invalid_past_planned_active_sprint (today : Int) (s : Sprint) :
    Except String Unit :=
  match s.start_date, s.end_date with
  | some _, some e =>
    if s.state_mode = StateMode.manual ∧ e < today ∧
        (s.state_manual = SprintState.planned ∨
         s.state_manual = SprintState.active) then
      Except.error
        "A sprint whose end date is in the past cannot be set to Planned or Active."
    else
      Except.ok ()
  | _, _ => Except.ok ()

/-- The `search_count` domain of
`_check_if_project_already_has_active_sprint`: other sprints of the same
project that are active, excluding the sprint itself. -/
def other_active_count (db : List Sprint) (s : Sprint) : Nat :=
  (db.filter (fun x =>
    x.project_id == s.project_id && x.state == SprintState.active &&
      x.id != s.id)).length

/-- `ProjectSprint._check_if_project_already_has_active_sprint`: reject an
active sprint when another sprint of the same project is already active. -/
def check_if_project_already_has_active_sprint (db : List Sprint)
    (s : Sprint) : Except String Unit :=
  if s.state = SprintState.active then
    if other_active_count db s ≠ 0 then
      Except.error "Only one active sprint is allowed per project."
    else
      Except.ok ()
  else
    Except.ok ()

/-- The invariant enforced by the single-active-sprint validator: within a
database, two active sprints of the same project are the same record. -/
def atMostOneActivePerProject (db : List Sprint) : Prop :=
  ∀ s1 ∈ db, ∀ s2 ∈ db, s1.project_id = s2.project_id →
    s1.state = SprintState.active → s2.state = SprintState.active →
    s1.id = s2.id

/-- The values dictionary of a sprint `write` call: `none` means the key is
absent from `vals`, `some v` means the key is present with value `v`. -/
structure SprintVals where
  name : Option String
  project_id : Option (Option Nat)
  start_date : Option (Option Int)
  end_date : Option (Option Int)
  state_mode : Option StateMode
  state_manual : Option SprintState
deriving DecidableEq, Repr

/-- The effect of `super().write(vals)` on a single sprint record: each
field present in `vals` overwrites the stored field (framework behaviour,
not part of this module). -/
def apply_vals (s : Sprint) (vals : SprintVals) : Sprint :=
  { s with
    name := vals.name.getD s.name
    project_id := vals.project_id.getD s.project_id
    start_date := vals.start_date.getD s.start_date
    end_date := vals.end_date.getD s.end_date
    state_mode := vals.state_mode.getD s.state_mode
    state_manual := vals.state_manual.getD s.state_manual }

/-- `ProjectSprint.write` on a single record: when `vals` contains the
`project_id` key, reject if the sprint has tasks in the database
(`search_count` on `project.task` with `sprint_id = sprint.id`) or if its
state is active or done; otherwise delegate to `super().write`. -/
def sprint_write (task_db : List Task) (s : Sprint) (vals : SprintVals) :
    Except String Sprint :=
  if vals.project_id.isSome then
    if (task_db.filter (fun t => t.sprint_id == some s.id)).length > 0 then
      Except.error "You cannot change the Project of the sprint once it has tasks."
    else if s.state = SprintState.active ∨ s.state = SprintState.done then
      Except.error "You cannot change the Project of the sprint once it is Active or Done."
    else
      Except.ok (apply_vals s vals)
  else
    Except.ok (apply_vals s vals)

/-- The first condition of `_check_sprint_deadline_and_project`:
`task.project_id and task.sprint_id.project_id and task.project_id != task.sprint_id.project_id`. -/
def task_project_mismatch (t : Task) (sp : Sprint) : Bool :=
  match t.project_id, sp.project_id with
  | some tp, some pp => tp != pp
  | _, _ => false

/-- The second condition of `_check_sprint_deadline_and_project`:
`task.date_deadline and task.sprint_id.end_date and task.date_deadline > task.sprint_id.end_date`. -/
def task_deadline_exceeds (t : Task) (sp : Sprint) : Bool :=
  match t.date_deadline, sp.end_date with
  | some d, some e => decide (e < d)
  | _, _ => false

/-- `ProjectTask._check_sprint_deadline_and_project` on a single task:
skip tasks without a sprint; reject when the task project and the sprint
project are both set and differ; then reject when the task deadline
exceeds the sprint end date.  `sprint_of` resolves the `sprint_id`
reference to the referenced `project.sprint` record. -/
def check_sprint_deadline_and_project (sprint_of : Nat → Sprint) (t : Task) :
    Except String Unit :=
  match t.sprint_id with
  | none => Except.ok ()
  | some sid =>
    if task_project_mismatch t (sprint_of sid) then
      Except.error
        "A task can only be assigned to a sprint belonging to the same project.\n\nPlease update either the task\x27s project or the assigned sprint to ensure they match."
    else if task_deadline_exceeds t (sprint_of sid) then
      -- the Python message interpolates the two dates; the static text is kept
      Except.error
        "The task deadline falls outside the sprint period.\n\nPlease set a deadline on or before the sprint end date."
    else
      Except.ok ()

/-- `ProjectSprint._inverse_task_select_ids` on a single sprint: `selected`
is the id set of `task_select_ids`.  Requires a project; computes
`to_add` (selected, not yet linked) and `to_remove` (linked, no longer
selected); rejects if any task to add belongs to a different project;
otherwise sets `sprint_id` on `to_add` and clears it on `to_remove`. -/
def inverse_task_select_ids (task_db : List Task) (sprint : Sprint)
    (selected : List Nat) : Except String (List Task) :=
  match sprint.project_id with
  | none =>
    Except.error "Please select a Project before adding tasks to the sprint."
  | some pid =>
    let to_add := task_db.filter (fun t =>
      selected.contains t.id && t.sprint_id != some sprint.id)
    let mismatched := to_add.filter (fun t => t.project_id != some pid)
    if mismatched.length ≠ 0 then
      Except.error "You can only add tasks from the project assigned to the sprint."
    else
      Except.ok (task_db.map (fun t =>
        if selected.contains t.id && t.sprint_id != some sprint.id then
          { t with sprint_id := some sprint.id }
        else if t.sprint_id == some sprint.id && !selected.contains t.id then
          { t with sprint_id := none }
        else
          t))

/-! ## Theorems -/

/-- C1 (counterexample): the claim states that in auto mode, incomplete
dates always fall back to `planned`, and that with both dates set the
state is `done` whenever `today > end_date`.  Both fail on the code: with
`start_date` unset, `end_date = 5` and `today = 10` the computed state is
`done`, not `planned`; and with `start_date = 10 > end_date = 5` and
`today = 7 > end_date` the computed state is `planned`, not `done`. -/
theorem C1_compute_state_counterexample :
    compute_state 10 StateMode.auto SprintState.planned none (some 5) =
        SprintState.done
  ∧ compute_state 10 StateMode.auto SprintState.planned none (some 5) ≠
        SprintState.planned
  ∧ compute_state 7 StateMode.auto SprintState.planned (some 10) (some 5) =
        SprintState.planned
  ∧ compute_state 7 StateMode.auto SprintState.planned (some 10) (some 5) ≠
        SprintState.done := by
  refine ⟨rfl, by decide, rfl, by decide⟩

/-- C1 (amended): in manual mode the state equals `state_manual`.  In auto
mode with both dates set and `start_date ≤ end_date`, the state is
`planned` when `today < start_date`, `active` when
`start_date ≤ today ≤ end_date`, and `done` when `today > end_date`.  With
incomplete dates the state falls back to `planned`, except that when only
`end_date` is set and `today > end_date` the state is `done`. -/
theorem C1_compute_state_cases (today : Int) (sm : SprintState)
    (sd ed : Option Int) :
    compute_state today StateMode.manual sm sd ed = sm
  ∧ (∀ s e : Int, sd = some s → ed = some e → s ≤ e →
      ((today < s →
          compute_state today StateMode.auto sm sd ed = SprintState.planned)
      ∧ (s ≤ today → today ≤ e →
          compute_state today StateMode.auto sm sd ed = SprintState.active)
      ∧ (e < today →
          compute_state today StateMode.auto sm sd ed = SprintState.done)))
  ∧ (sd = none → ed = none →
      compute_state today StateMode.auto sm sd ed = SprintState.planned)
  ∧ (∀ s : Int, sd = some s → ed = none →
      compute_state today StateMode.auto sm sd ed = SprintState.planned)
  ∧ (∀ e : Int, sd = none → ed = some e →
      ((today ≤ e →
          compute_state today StateMode.auto sm sd ed = SprintState.planned)
      ∧ (e < today →
          compute_state today StateMode.auto sm sd ed = SprintState.done))) := by
  refine ⟨rfl, ?_, ?_, ?_, ?_⟩
  · rintro s e rfl rfl hse
    refine ⟨?_, ?_, ?_⟩
    · intro h
      simp [compute_state, optTest, h]
    · intro h1 h2
      simp [compute_state, optTest, h1, h2, not_lt.mpr h1]
    · intro h
      have h1 : ¬ today < s := by omega
      have h2 : ¬ today ≤ e := by omega
      simp [compute_state, optTest, h, h1, h2]
  · rintro rfl rfl
    simp [compute_state, optTest]
  · rintro s rfl rfl
    by_cases h : today < s <;> simp [compute_state, optTest, h]
  · rintro e rfl rfl
    constructor
    · intro h
      simp [compute_state, optTest, not_lt.mpr h]
    · intro h
      simp [compute_state, optTest, h]

/-- C1 (witness): Scenario A — a sprint with `start_date = 0`
(2024-01-01), `end_date = 13` (2024-01-14) in auto mode, evaluated on
`today = 6` (2024-01-07), has state `active`. -/
theorem C1_compute_state_witness :
    compute_state 6 StateMode.auto SprintState.planned (some 0) (some 13) =
      SprintState.active :=
  ((C1_compute_state_cases 6 SprintState.planned (some 0) (some 13)).2.1
    0 13 rfl rfl (by decide)).2.1 (by decide) (by decide)

/-- C2: with both dates set, the date validator rejects exactly when
`end_date < start_date` or `(end_date - start_date) + 1 > 28`, and accepts
otherwise.  In particular Scenario C: a sprint from day 0 (2024-01-01) to
day 45 (2024-02-15), 46 days, is rejected. -/
theorem C2_check_duration_and_order_iff (s e : Int) :
    ((∃ msg, check_duration_and_order (some s) (some e) = Except.error msg) ↔
      (e < s ∨ 28 < (e - s) + 1))
  ∧ check_duration_and_order (some 0) (some 45) =
      Except.error "Sprint duration cannot exceed 4 weeks (28 days)." := by
  refine ⟨?_, rfl⟩
  show (∃ msg,
      (if e < s then
        Except.error "Sprint end date cannot be before the start date."
      else if (e - s) + 1 > 28 then
        Except.error "Sprint duration cannot exceed 4 weeks (28 days)."
      else
        Except.ok ()) = Except.error msg) ↔ (e < s ∨ 28 < (e - s) + 1)
  split_ifs with h1 h2
  · exact iff_of_true ⟨_, rfl⟩ (Or.inl h1)
  · exact iff_of_true ⟨_, rfl⟩ (Or.inr h2)
  · refine iff_of_false ?_ (by omega)
    rintro ⟨msg, h⟩
    exact nomatch h

/-- If the single-active-sprint check passes for an active sprint, its
`search_count` of other active sprints of the same project is zero. -/
lemma other_active_count_eq_zero_of_check_ok (db : List Sprint) (s : Sprint)
    (hs : s.state = SprintState.active)
    (h : check_if_project_already_has_active_sprint db s = Except.ok ()) :
    other_active_count db s = 0 := by
  unfold check_if_project_already_has_active_sprint at h
  rw [if_pos hs] at h
  by_contra hc
  rw [if_pos hc] at h
  exact nomatch h

/-- A different active sprint of the same project in the database makes
the `search_count` of the single-active-sprint check nonzero. -/
lemma other_active_count_ne_zero_of_mem (db : List Sprint) (s other : Sprint)
    (hmem : other ∈ db) (hproj : other.project_id = s.project_id)
    (hst : other.state = SprintState.active) (hid : other.id ≠ s.id) :
    other_active_count db s ≠ 0 := by
  have hf : other ∈ db.filter (fun x =>
      x.project_id == s.project_id && x.state == SprintState.active &&
        x.id != s.id) :=
    List.mem_filter.mpr ⟨hmem, by simp [hproj, hst, hid]⟩
  have : 0 < other_active_count db s :=
    List.length_pos.mpr (List.ne_nil_of_mem hf)
  omega

/-- C3: the single-active-sprint validator rejects an active sprint when
another active sprint of the same project (different id) exists in the
database, and consequently the invariant "at most one active sprint per
project" is preserved by every successful mutation: if it held before,
and every record of the new database is either unchanged or passed the
validator against the new database, it holds after. -/
theorem C3_single_active_sprint (db db2 : List Sprint) :
    (∀ s other : Sprint, s.state = SprintState.active → other ∈ db →
      other.project_id = s.project_id → other.state = SprintState.active →
      other.id ≠ s.id →
      check_if_project_already_has_active_sprint db s =
        Except.error "Only one active sprint is allowed per project.")
  ∧ (atMostOneActivePerProject db →
      (∀ s ∈ db2, s ∈ db ∨
        check_if_project_already_has_active_sprint db2 s = Except.ok ()) →
      atMostOneActivePerProject db2) := by
  constructor
  · intro s other hs hmem hproj hst hid
    have hc : other_active_count db s ≠ 0 :=
      other_active_count_ne_zero_of_mem db s other hmem hproj hst hid
    unfold check_if_project_already_has_active_sprint
    rw [if_pos hs, if_pos hc]
  · intro hinv hok s1 hm1 s2 hm2 hproj h1 h2
    by_contra hne
    have hcontra : ∀ a b : Sprint, a ∈ db2 → b ∈ db2 →
        b.project_id = a.project_id → a.state = SprintState.active →
        b.state = SprintState.active → b.id ≠ a.id →
        check_if_project_already_has_active_sprint db2 a =
          Except.ok () → False := by
      intro a b hma hmb hp ha hb hab hok'
      exact other_active_count_ne_zero_of_mem db2 a b hmb hp hb hab
        (other_active_count_eq_zero_of_check_ok db2 a ha hok')
    rcases hok s1 hm1 with hold1 | hchk1
    · rcases hok s2 hm2 with hold2 | hchk2
      · exact hne (hinv s1 hold1 s2 hold2 hproj h1 h2)
      · exact hcontra s2 s1 hm2 hm1 hproj h2 h1 hne hchk2
    · exact hcontra s1 s2 hm1 hm2 hproj.symm h1 h2 (fun h => hne h.symm) hchk1

/-- C3 (witness): Scenario D — sprint 1 of project 7 is active; making
sprint 2 of project 7 active is rejected. -/
theorem C3_single_active_sprint_witness :
    check_if_project_already_has_active_sprint
      [{ id := 1, name := "S1", project_id := some 7, start_date := some 0,
         end_date := some 13, state_mode := StateMode.manual,
         state_manual := SprintState.active, state := SprintState.active }]
      { id := 2, name := "S2", project_id := some 7, start_date := some 0,
        end_date := some 13, state_mode := StateMode.manual,
        state_manual := SprintState.active, state := SprintState.active } =
      Except.error "Only one active sprint is allowed per project." :=
  (C3_single_active_sprint
      [{ id := 1, name := "S1", project_id := some 7, start_date := some 0,
         end_date := some 13, state_mode := StateMode.manual,
         state_manual := SprintState.active, state := SprintState.active }]
      []).1
    { id := 2, name := "S2", project_id := some 7, start_date := some 0,
      end_date := some 13, state_mode := StateMode.manual,
      state_manual := SprintState.active, state := SprintState.active }
    { id := 1, name := "S1", project_id := some 7, start_date := some 0,
      end_date := some 13, state_mode := StateMode.manual,
      state_manual := SprintState.active, state := SprintState.active }
    rfl (by simp) rfl rfl (by decide)

/-- C4: a sprint write whose `vals` contain `project_id` is rejected when
the sprint has at least one task in the database or its state is active
or done, leaving the record unchanged (the write returns an error and no
updated record); a sprint with no tasks and state planned accepts the
write and its project is updated to the supplied value. -/
theorem C4_project_immutability (task_db : List Task) (s : Sprint)
    (vals : SprintVals) :
    (vals.project_id.isSome = true →
      ((task_db.filter (fun t => t.sprint_id == some s.id)).length ≠ 0 ∨
        s.state = SprintState.active ∨ s.state = SprintState.done) →
      ∃ msg, sprint_write task_db s vals = Except.error msg)
  ∧ ((task_db.filter (fun t => t.sprint_id == some s.id)).length = 0 →
      s.state = SprintState.planned →
      sprint_write task_db s vals = Except.ok (apply_vals s vals) ∧
      ∀ p, vals.project_id = some p → (apply_vals s vals).project_id = p) := by
  constructor
  · intro hsome hcond
    unfold sprint_write
    rw [if_pos hsome]
    by_cases hlen :
        (task_db.filter (fun t => t.sprint_id == some s.id)).length > 0
    · rw [if_pos hlen]
      exact ⟨_, rfl⟩
    · have hst : s.state = SprintState.active ∨ s.state = SprintState.done := by
        rcases hcond with h | h
        · omega
        · exact h
      rw [if_neg hlen, if_pos hst]
      exact ⟨_, rfl⟩
  · intro hlen0 hplanned
    have hwrite : sprint_write task_db s vals = Except.ok (apply_vals s vals) := by
      unfold sprint_write
      by_cases hsome : vals.project_id.isSome = true
      · have hlen : ¬ (task_db.filter
            (fun t => t.sprint_id == some s.id)).length > 0 := by omega
        have hst : ¬ (s.state = SprintState.active ∨
            s.state = SprintState.done) := by
          rw [hplanned]
          rintro (h | h) <;> exact nomatch h
        rw [if_pos hsome, if_neg hlen, if_neg hst]
      · rw [if_neg hsome]
    refine ⟨hwrite, ?_⟩
    intro p hp
    simp [apply_vals, hp]

/-- C4 (witness): a sprint with one linked task rejects a write containing
`project_id`; a task-free planned sprint accepts it and the project is
changed. -/
theorem C4_project_immutability_witness :
    (∃ msg, sprint_write
      [{ id := 10, project_id := some 7, sprint_id := some 1,
         date_deadline := none }]
      { id := 1, name := "S1", project_id := some 7, start_date := some 0,
        end_date := some 13, state_mode := StateMode.auto,
        state_manual := SprintState.planned, state := SprintState.planned }
      { name := none, project_id := some (some 8), start_date := none,
        end_date := none, state_mode := none, state_manual := none } =
      Except.error msg) :=
  (C4_project_immutability
      [{ id := 10, project_id := some 7, sprint_id := some 1,
         date_deadline := none }]
      { id := 1, name := "S1", project_id := some 7, start_date := some 0,
        end_date := some 13, state_mode := StateMode.auto,
        state_manual := SprintState.planned, state := SprintState.planned }
      { name := none, project_id := some (some 8), start_date := none,
        end_date := none, state_mode := none, state_manual := none }).1
    rfl (Or.inl (by decide))

/-- C10: the project-immutability guard keys on the presence of the
`project_id` key in `vals`, not on its value: even when the supplied
project equals the sprint's current project, a write is rejected whenever
the sprint has tasks or its state is active or done. -/
theorem C10_noop_project_write_rejected (task_db : List Task) (s : Sprint)
    (vals : SprintVals)
    (hsame : vals.project_id = some s.project_id)
    (hcond : (task_db.filter (fun t => t.sprint_id == some s.id)).length ≠ 0 ∨
      s.state = SprintState.active ∨ s.state = SprintState.done) :
    ∃ msg, sprint_write task_db s vals = Except.error msg := by
  have hsome : vals.project_id.isSome = true := by
    rw [hsame]; rfl
  unfold sprint_write
  rw [if_pos hsome]
  by_cases hlen :
      (task_db.filter (fun t => t.sprint_id == some s.id)).length > 0
  · rw [if_pos hlen]
    exact ⟨_, rfl⟩
  · have hst : s.state = SprintState.active ∨ s.state = SprintState.done := by
      rcases hcond with h | h
      · omega
      · exact h
    rw [if_neg hlen, if_pos hst]
    exact ⟨_, rfl⟩

/-- C10 (witness): an active sprint of project 7 rejects a write that
re-supplies the same project 7. -/
theorem C10_noop_project_write_rejected_witness :
    ∃ msg, sprint_write []
      { id := 1, name := "S1", project_id := some 7, start_date := some 0,
        end_date := some 13, state_mode := StateMode.manual,
        state_manual := SprintState.active, state := SprintState.active }
      { name := none, project_id := some (some 7), start_date := none,
        end_date := none, state_mode := none, state_manual := none } =
      Except.error msg :=
  C10_noop_project_write_rejected []
    { id := 1, name := "S1", project_id := some 7, start_date := some 0,
      end_date := some 13, state_mode := StateMode.manual,
      state_manual := SprintState.active, state := SprintState.active }
    { name := none, project_id := some (some 7), start_date := none,
      end_date := none, state_mode := none, state_manual := none }
    rfl (Or.inr (Or.inl rfl))

/-- C5: the task validator rejects a task whose sprint is set and whose
project and the sprint's project are both set but differ, so a task that
passes validation with sprint and both projects set satisfies
`task.project_id = sprint.project_id`. -/
theorem C5_task_project_match (sprint_of : Nat → Sprint) (t : Task) :
    (∀ sid tp pp, t.sprint_id = some sid → t.project_id = some tp →
      (sprint_of sid).project_id = some pp → tp ≠ pp →
      check_sprint_deadline_and_project sprint_of t =
        Except.error
          "A task can only be assigned to a sprint belonging to the same project.\n\nPlease update either the task\x27s project or the assigned sprint to ensure they match.")
  ∧ (check_sprint_deadline_and_project sprint_of t = Except.ok () →
      ∀ sid tp pp, t.sprint_id = some sid → t.project_id = some tp →
        (sprint_of sid).project_id = some pp → tp = pp) := by
  have hreject : ∀ sid tp pp, t.sprint_id = some sid →
      t.project_id = some tp → (sprint_of sid).project_id = some pp →
      tp ≠ pp →
      check_sprint_deadline_and_project sprint_of t =
        Except.error
          "A task can only be assigned to a sprint belonging to the same project.\n\nPlease update either the task\x27s project or the assigned sprint to ensure they match." := by
    intro sid tp pp hsid htp hpp hne
    have hb : task_project_mismatch t (sprint_of sid) = true := by
      unfold task_project_mismatch
      rw [htp, hpp]
      simpa using hne
    simp only [check_sprint_deadline_and_project, hsid]
    rw [if_pos hb]
  refine ⟨hreject, ?_⟩
  intro hok sid tp pp hsid htp hpp
  by_contra hne
  rw [hreject sid tp pp hsid htp hpp hne] at hok
  exact nomatch hok

/-- C5 (witness): a task of project 2 assigned to a sprint of project 3
is rejected with the project-mismatch error. -/
theorem C5_task_project_match_witness :
    check_sprint_deadline_and_project
      (fun _ =>
        { id := 1, name := "S1", project_id := some 3, start_date := some 0,
          end_date := some 13, state_mode := StateMode.auto,
          state_manual := SprintState.planned, state := SprintState.planned })
      { id := 10, project_id := some 2, sprint_id := some 1,
        date_deadline := none } =
      Except.error
        "A task can only be assigned to a sprint belonging to the same project.\n\nPlease update either the task\x27s project or the assigned sprint to ensure they match." :=
  (C5_task_project_match
      (fun _ =>
        { id := 1, name := "S1", project_id := some 3, start_date := some 0,
          end_date := some 13, state_mode := StateMode.auto,
          state_manual := SprintState.planned, state := SprintState.planned })
      { id := 10, project_id := some 2, sprint_id := some 1,
        date_deadline := none }).1
    1 2 3 rfl rfl rfl (by decide)

/-- C6: the task validator rejects a task whose sprint and deadline are
both set when the deadline exceeds the sprint's end date, so a task that
passes validation with sprint, deadline and sprint end date set satisfies
`deadline ≤ end_date`. -/
theorem C6_task_deadline_within_sprint (sprint_of : Nat → Sprint) (t : Task) :
    (∀ sid d e, t.sprint_id = some sid → t.date_deadline = some d →
      (sprint_of sid).end_date = some e → e < d →
      ∃ msg, check_sprint_deadline_and_project sprint_of t =
        Except.error msg)
  ∧ (check_sprint_deadline_and_project sprint_of t = Except.ok () →
      ∀ sid d e, t.sprint_id = some sid → t.date_deadline = some d →
        (sprint_of sid).end_date = some e → d ≤ e) := by
  have hreject : ∀ sid d e, t.sprint_id = some sid →
      t.date_deadline = some d → (sprint_of sid).end_date = some e →
      e < d →
      ∃ msg, check_sprint_deadline_and_project sprint_of t =
        Except.error msg := by
    intro sid d e hsid hd he hlt
    simp only [check_sprint_deadline_and_project, hsid]
    by_cases hb : task_project_mismatch t (sprint_of sid) = true
    · rw [if_pos hb]
      exact ⟨_, rfl⟩
    · have hex : task_deadline_exceeds t (sprint_of sid) = true := by
        unfold task_deadline_exceeds
        rw [hd, he]
        simpa using hlt
      rw [if_neg hb, if_pos hex]
      exact ⟨_, rfl⟩
  refine ⟨hreject, ?_⟩
  intro hok sid d e hsid hd he
  by_contra hgt
  push_neg at hgt
  obtain ⟨msg, hmsg⟩ := hreject sid d e hsid hd he hgt
  rw [hmsg] at hok
  exact nomatch hok

/-- C6 (witness): a task with deadline day 20 in a sprint ending day 13
is rejected. -/
theorem C6_task_deadline_within_sprint_witness :
    ∃ msg, check_sprint_deadline_and_project
      (fun _ =>
        { id := 1, name := "S1", project_id := some 2, start_date := some 0,
          end_date := some 13, state_mode := StateMode.auto,
          state_manual := SprintState.planned, state := SprintState.planned })
      { id := 10, project_id := some 2, sprint_id := some 1,
        date_deadline := some 20 } = Except.error msg :=
  (C6_task_deadline_within_sprint
      (fun _ =>
        { id := 1, name := "S1", project_id := some 2, start_date := some 0,
          end_date := some 13, state_mode := StateMode.auto,
          state_manual := SprintState.planned, state := SprintState.planned })
      { id := 10, project_id := some 2, sprint_id := some 1,
        date_deadline := some 20 }).1
    1 20 13 rfl rfl rfl (by decide)

/-- C7: the past-date manual-state validator rejects a sprint with both
dates set, manual mode, end date before today and manual state planned or
active; it never rejects auto-mode sprints; and it never rejects when the
end date is not in the past, regardless of the start date. -/
theorem C7_past_manual_state_check (today : Int) (s : Sprint) :
    (∀ sd e, s.start_date = some sd → s.end_date = some e →
      s.state_mode = StateMode.manual → e < today →
      (s.state_manual = SprintState.planned ∨
        s.state_manual = SprintState.active) →
      check_no_invalid_past_planned_active_sprint today s =
        Except.error
          "A sprint whose end date is in the past cannot be set to Planned or Active.")
  ∧ (s.state_mode = StateMode.auto →
      check_no_invalid_past_planned_active_sprint today s = Except.ok ())
  ∧ (∀ e, s.end_date = some e → today ≤ e →
      check_no_invalid_past_planned_active_sprint today s =
        Except.ok ()) := by
  refine ⟨?_, ?_, ?_⟩
  · intro sd e hsd he hmode hlt hsm
    simp only [check_no_invalid_past_planned_active_sprint, hsd, he]
    rw [if_pos ⟨hmode, hlt, hsm⟩]
  · intro hauto
    cases hsd : s.start_date with
    | none => simp [check_no_invalid_past_planned_active_sprint, hsd]
    | some sd =>
      cases he : s.end_date with
      | none => simp [check_no_invalid_past_planned_active_sprint, hsd, he]
      | some e =>
        simp only [check_no_invalid_past_planned_active_sprint, hsd, he]
        rw [if_neg]
        rintro ⟨hm, -, -⟩
        rw [hauto] at hm
        exact nomatch hm
  · intro e he hle
    cases hsd : s.start_date with
    | none => simp [check_no_invalid_past_planned_active_sprint, hsd]
    | some sd =>
      simp only [check_no_invalid_past_planned_active_sprint, hsd, he]
      rw [if_neg]
      rintro ⟨-, hlt, -⟩
      omega

/-- C7 (witness): Scenario E — a manual-mode sprint with end date day 13
in the past (`today = 20`) and `state_manual = planned` is rejected. -/
theorem C7_past_manual_state_check_witness :
    check_no_invalid_past_planned_active_sprint 20
      { id := 1, name := "S1", project_id := some 2, start_date := some 0,
        end_date := some 13, state_mode := StateMode.manual,
        state_manual := SprintState.planned, state := SprintState.planned } =
      Except.error
        "A sprint whose end date is in the past cannot be set to Planned or Active." :=
  (C7_past_manual_state_check 20
      { id := 1, name := "S1", project_id := some 2, start_date := some 0,
        end_date := some 13, state_mode := StateMode.manual,
        state_manual := SprintState.planned, state := SprintState.planned }).1
    0 13 rfl rfl rfl (by decide) (Or.inl rfl)

/-- A task to add that belongs to another project makes the `mismatched`
record set of `_inverse_task_select_ids` nonempty. -/
lemma mismatched_length_ne_zero (task_db : List Task) (sprint : Sprint)
    (selected : List Nat) (pid : Nat)
    (hex : ∃ t ∈ task_db, selected.contains t.id = true ∧
      t.sprint_id ≠ some sprint.id ∧ t.project_id ≠ some pid) :
    ((task_db.filter (fun t =>
        selected.contains t.id && t.sprint_id != some sprint.id)).filter
      (fun t => t.project_id != some pid)).length ≠ 0 := by
  obtain ⟨t, hmem, hsel, hns, hp⟩ := hex
  have h1 : t ∈ task_db.filter (fun t =>
      selected.contains t.id && t.sprint_id != some sprint.id) :=
    List.mem_filter.mpr ⟨hmem, by
      rw [Bool.and_eq_true]
      exact ⟨hsel, bne_iff_ne.mpr hns⟩⟩
  have h2 : t ∈ (task_db.filter (fun t =>
      selected.contains t.id && t.sprint_id != some sprint.id)).filter
      (fun t => t.project_id != some pid) :=
    List.mem_filter.mpr ⟨h1, bne_iff_ne.mpr hp⟩
  have := List.length_pos.mpr (List.ne_nil_of_mem h2)
  omega

/-- C8: with the sprint's project set, the task-selection inverse either
rejects — exactly when some selected, not-yet-linked task belongs to a
different project, with no task modified — or succeeds and applies the
diff: every selected task not previously linked gets `sprint_id` set to
this sprint, every previously linked task no longer selected gets
`sprint_id` cleared, and every other task is unchanged. -/
theorem C8_inverse_task_select_ids_diff (task_db : List Task)
    (sprint : Sprint) (selected : List Nat) (pid : Nat)
    (hproj : sprint.project_id = some pid) :
    ((∃ t ∈ task_db, selected.contains t.id = true ∧
        t.sprint_id ≠ some sprint.id ∧ t.project_id ≠ some pid) →
      inverse_task_select_ids task_db sprint selected =
        Except.error
          "You can only add tasks from the project assigned to the sprint.")
  ∧ (∀ task_db2,
      inverse_task_select_ids task_db sprint selected = Except.ok task_db2 →
      task_db2.length = task_db.length ∧
      ∀ i (hi : i < task_db.length) (hi2 : i < task_db2.length),
        ((selected.contains (task_db.get ⟨i, hi⟩).id = true →
            (task_db.get ⟨i, hi⟩).sprint_id ≠ some sprint.id →
            task_db2.get ⟨i, hi2⟩ =
              { task_db.get ⟨i, hi⟩ with sprint_id := some sprint.id })
        ∧ ((task_db.get ⟨i, hi⟩).sprint_id = some sprint.id →
            selected.contains (task_db.get ⟨i, hi⟩).id = false →
            task_db2.get ⟨i, hi2⟩ =
              { task_db.get ⟨i, hi⟩ with sprint_id := none })
        ∧ (¬ (selected.contains (task_db.get ⟨i, hi⟩).id = true ∧
              (task_db.get ⟨i, hi⟩).sprint_id ≠ some sprint.id) →
            ¬ ((task_db.get ⟨i, hi⟩).sprint_id = some sprint.id ∧
              selected.contains (task_db.get ⟨i, hi⟩).id = false) →
            task_db2.get ⟨i, hi2⟩ = task_db.get ⟨i, hi⟩))) := by
  constructor
  · intro hex
    have hlen := mismatched_length_ne_zero task_db sprint selected pid hex
    simp only [inverse_task_select_ids, hproj]
    rw [if_pos hlen]
  · intro task_db2 hok
    simp only [inverse_task_select_ids, hproj] at hok
    split_ifs at hok with hlen
    have hdb2 : task_db2 = task_db.map (fun t =>
        if selected.contains t.id && t.sprint_id != some sprint.id then
          { t with sprint_id := some sprint.id }
        else if t.sprint_id == some sprint.id && !selected.contains t.id then
          { t with sprint_id := none }
        else t) := (Except.ok.inj hok).symm
    subst hdb2
    refine ⟨by simp, ?_⟩
    intro i hi hi2
    have hget : (task_db.map (fun t =>
          if selected.contains t.id && t.sprint_id != some sprint.id then
            { t with sprint_id := some sprint.id }
          else if t.sprint_id == some sprint.id && !selected.contains t.id then
            { t with sprint_id := none }
          else t)).get ⟨i, hi2⟩ =
          (if selected.contains (task_db.get ⟨i, hi⟩).id &&
              (task_db.get ⟨i, hi⟩).sprint_id != some sprint.id then
            { task_db.get ⟨i, hi⟩ with sprint_id := some sprint.id }
          else if (task_db.get ⟨i, hi⟩).sprint_id == some sprint.id &&
              !selected.contains (task_db.get ⟨i, hi⟩).id then
            { task_db.get ⟨i, hi⟩ with sprint_id := none }
          else task_db.get ⟨i, hi⟩) := by
      simp [List.getElem_map]
    rw [hget]
    set t := task_db.get ⟨i, hi⟩ with ht
    refine ⟨?_, ?_, ?_⟩
    · intro hsel hns
      have hcond : (selected.contains t.id &&
          t.sprint_id != some sprint.id) = true := by
        rw [Bool.and_eq_true]
        exact ⟨hsel, bne_iff_ne.mpr hns⟩
      rw [hcond, if_pos rfl]
    · intro hlink hnsel
      have hcond : (selected.contains t.id &&
          t.sprint_id != some sprint.id) = false := by
        rw [hnsel, Bool.false_and]
      have hcond2 : (t.sprint_id == some sprint.id &&
          !selected.contains t.id) = true := by
        rw [Bool.and_eq_true]
        exact ⟨beq_iff_eq.mpr hlink, by rw [hnsel]; rfl⟩
      rw [hcond, hcond2, if_neg Bool.false_ne_true, if_pos rfl]
    · intro hnadd hnrem
      cases hsel : selected.contains t.id with
      | false =>
        have hne : t.sprint_id ≠ some sprint.id := fun heq =>
          hnrem ⟨heq, hsel⟩
        have hcond : (false && t.sprint_id != some sprint.id) = false :=
          Bool.false_and _
        have hcond2 : (t.sprint_id == some sprint.id && !false) = false := by
          rw [beq_eq_false_iff_ne.mpr hne, Bool.false_and]
        rw [hcond, hcond2, if_neg Bool.false_ne_true,
          if_neg Bool.false_ne_true]
      | true =>
        have heq : t.sprint_id = some sprint.id := by
          by_contra hne
          exact hnadd ⟨hsel, hne⟩
        have hcond : (true && t.sprint_id != some sprint.id) = false := by
          rw [Bool.true_and, heq, bne_self_eq_false]
        have hcond2 : (t.sprint_id == some sprint.id && !true) = false := by
          rw [Bool.not_true, Bool.and_false]
        rw [hcond, hcond2, if_neg Bool.false_ne_true,
          if_neg Bool.false_ne_true]

/-- C8 (witness): a sprint of project 3 with one selected task of
project 2 rejects the whole operation. -/
theorem C8_inverse_task_select_ids_diff_witness :
    inverse_task_select_ids
      [{ id := 10, project_id := some 2, sprint_id := none,
         date_deadline := none }]
      { id := 1, name := "S1", project_id := some 3, start_date := some 0,
        end_date := some 13, state_mode := StateMode.auto,
        state_manual := SprintState.planned, state := SprintState.planned }
      [10] =
      Except.error
        "You can only add tasks from the project assigned to the sprint." :=
  (C8_inverse_task_select_ids_diff
      [{ id := 10, project_id := some 2, sprint_id := none,
         date_deadline := none }]
      { id := 1, name := "S1", project_id := some 3, start_date := some 0,
        end_date := some 13, state_mode := StateMode.auto,
        state_manual := SprintState.planned, state := SprintState.planned }
      [10] 3 rfl).1
    ⟨{ id := 10, project_id := some 2, sprint_id := none,
       date_deadline := none }, by simp, rfl, by decide, by decide⟩

/-- C9 (counterexample): the claim asserts the raised errors carry the
literal texts "tasks must belong to assigned project" and
"select project before adding tasks".  The code raises different literal
messages: on a cross-project task-to-add it raises "You can only add
tasks from the project assigned to the sprint.", and with no project set
it raises "Please select a Project before adding tasks to the sprint.". -/
theorem C9_error_message_counterexample :
    inverse_task_select_ids
      [{ id := 10, project_id := some 2, sprint_id := none,
         date_deadline := none }]
      { id := 1, name := "S1", project_id := some 3, start_date := some 0,
        end_date := some 13, state_mode := StateMode.auto,
        state_manual := SprintState.planned, state := SprintState.planned }
      [10] =
      Except.error
        "You can only add tasks from the project assigned to the sprint."
  ∧ "You can only add tasks from the project assigned to the sprint." ≠
      "tasks must belong to assigned project"
  ∧ inverse_task_select_ids []
      { id := 1, name := "S1", project_id := none, start_date := some 0,
        end_date := some 13, state_mode := StateMode.auto,
        state_manual := SprintState.planned, state := SprintState.planned }
      [] =
      Except.error
        "Please select a Project before adding tasks to the sprint."
  ∧ "Please select a Project before adding tasks to the sprint." ≠
      "select project before adding tasks" :=
  ⟨rfl, by decide, rfl, by decide⟩

/-- C9 (amended): the task-selection write fails with the literal message
"You can only add tasks from the project assigned to the sprint." when a
task to add belongs to a different project than the sprint, and with the
literal message "Please select a Project before adding tasks to the
sprint." when the sprint has no project set. -/
theorem C9_error_messages (task_db : List Task) (sprint : Sprint)
    (selected : List Nat) :
    (sprint.project_id = none →
      inverse_task_select_ids task_db sprint selected =
        Except.error
          "Please select a Project before adding tasks to the sprint.")
  ∧ (∀ pid, sprint.project_id = some pid →
      (∃ t ∈ task_db, selected.contains t.id = true ∧
        t.sprint_id ≠ some sprint.id ∧ t.project_id ≠ some pid) →
      inverse_task_select_ids task_db sprint selected =
        Except.error
          "You can only add tasks from the project assigned to the sprint.") := by
  constructor
  · intro hnone
    simp only [inverse_task_select_ids, hnone]
  · intro pid hproj hex
    have hlen := mismatched_length_ne_zero task_db sprint selected pid hex
    simp only [inverse_task_select_ids, hproj]
    rw [if_pos hlen]

/-- C9 (witness): a sprint without a project raises the missing-project
message. -/
theorem C9_error_messages_witness :
    inverse_task_select_ids []
      { id := 2, name := "S2", project_id := none, start_date := some 0,
        end_date := some 13, state_mode := StateMode.auto,
        state_manual := SprintState.planned, state := SprintState.planned }
      [] =
      Except.error
        "Please select a Project before adding tasks to the sprint." :=
  (C9_error_messages []
      { id := 2, name := "S2", project_id := none, start_date := some 0,
        end_date := some 13, state_mode := StateMode.auto,
        state_manual := SprintState.planned, state := SprintState.planned }
      []).1 rfl

end OdooFlow
